import Mathlib

/-!
Verification of the stage-graph execution engine in
`src/langgraph-service/app.py` (virtual-it-company repository).

The Python service is embedded shallowly:
* Pydantic models become Lean structures. The loosely typed
  `Dict[str, Any]` fields `context` and `metadata` are modelled by
  structures with one optional field per key the code ever writes
  (`analysis`, `plan`, `execution` for `context`; the fixed tags for
  `metadata`), which is exactly the set of namespaced keys the stages use.
* The language-model call `llm.ainvoke(prompt)` is an opaque external
  capability: each stage receives its outcome as an `Except String String`
  (error message, or response text that the code never inspects).
* `datetime.now()` is an external input, passed in as a parameter.
* Redis (fast tier) and MongoDB (durable tier) become explicit store
  values threaded through the endpoint functions; a raising client call
  is modelled by a boolean outcome parameter (`false` = the call raises,
  in which case it performs no write).
-/

namespace VIC

/-- A task record as built by `create_plan` / mutated by `execute_tasks`
(`id`, `title`, `type`, `priority`, `status`, `estimated_hours`,
optional `assigned_agent`). -/
structure Task where
  id : String
  title : String
  type : String
  priority : String
  status : String
  estimated_hours : Nat
  assigned_agent : Option String := none
deriving DecidableEq, Repr

/-- The analysis dictionary built in `analyze_requirements` (app.py lines
95-101). -/
structure Analysis where
  complexity : Nat
  technologies : List String
  features : List String
  challenges : List String
  estimated_hours : Nat
deriving DecidableEq, Repr

/-- One phase entry of the plan dictionary (app.py lines 138-143). -/
structure PlanPhase where
  name : String
  duration : String
  tasks : Nat
deriving DecidableEq, Repr

/-- The plan dictionary built in `create_plan` (app.py lines 137-146). -/
structure Plan where
  phases : List PlanPhase
  total_tasks : Nat
  estimated_duration : String
deriving DecidableEq, Repr

/-- The execution summary written by `execute_tasks` (app.py lines
192-196). -/
structure Execution where
  tasks_assigned : Nat
  agents_used : Nat
  start_time : String
deriving DecidableEq, Repr

/-- The `context : Dict[str, Any]` of `ProjectState`, modelled by its three
namespaced keys; `none` means the key is absent.  The empty dict `{}` is
the state where all three are `none`. -/
structure Ctx where
  analysis : Option Analysis := none
  plan : Option Plan := none
  execution : Option Execution := none
deriving DecidableEq, Repr

/-- The empty context mapping. -/
def Ctx.empty : Ctx := {}

/-- The `metadata` dict written once by `start_workflow` (app.py lines
256-261) and never touched by any stage. -/
structure Metadata where
  project_type : String := "web_application"
  priority : String := "medium"
  deadline : Option String := none
  created_at : String := ""
deriving DecidableEq, Repr

/-- Model of `ProjectState` (app.py lines 32-40). -/
structure ProjectState where
  project_id : String
  requirements : String
  status : String := "draft"
  current_phase : String := "analyzing"
  tasks : List Task := []
  errors : List String := []
  context : Ctx := {}
  metadata : Metadata := {}
deriving DecidableEq, Repr

/-- The analysis value `analyze_requirements` builds on success (app.py
lines 95-101): every field is a constant except `features`, which is the
requirements text split on `"."`. -/
def mkAnalysis (requirements : String) : Analysis :=
  { complexity := 7
    technologies := ["React", "Node.js", "MongoDB"]
    features := requirements.splitOn "."
    challenges := ["User authentication", "Real-time updates"]
    estimated_hours := 160 }

/-- Stage `analyze` = `analyze_requirements` (app.py lines 74-111).
`llm` is the outcome of the `llm.ainvoke(prompt)` call: `.ok response`
or `.error e` when it raises.  Note: unlike `create_plan` and
`execute_tasks`, this function has no `if state.status == "failed"`
guard. -/
def analyze_requirements (llm : Except String String) (state : ProjectState) :
    ProjectState :=
  match llm with
  | .ok _ =>
      { state with
        context := { state.context with analysis := some (mkAnalysis state.requirements) }
        status := "analyzed"
        current_phase := "planning" }
  | .error e =>
      { state with
        errors := state.errors ++ ["Analysis failed: " ++ e]
        status := "failed" }

/-- The fixed plan dictionary of `create_plan` (app.py lines 137-146). -/
def samplePlan : Plan :=
  { phases :=
      [ { name := "Setup", duration := "1 week", tasks := 3 }
      , { name := "Development", duration := "4 weeks", tasks := 12 }
      , { name := "Testing", duration := "2 weeks", tasks := 6 }
      , { name := "Deployment", duration := "1 week", tasks := 2 } ]
    total_tasks := 23
    estimated_duration := "8 weeks" }

/-- The five sample tasks generated by the loop in `create_plan` (app.py
lines 149-159): `for i in range(5)`. -/
def sampleTasks : List Task :=
  (List.range 5).map fun i =>
    { id := "task_" ++ toString (i + 1)
      title := "Implement feature " ++ toString (i + 1)
      type := "code"
      priority := "medium"
      status := "pending"
      estimated_hours := 8
      assigned_agent := none }

/-- Stage `plan` = `create_plan` (app.py lines 113-170).  Returns the
state unchanged when `status == "failed"`; otherwise on capability
success writes the fixed plan and tasks, on failure appends an error and
sets `status = "failed"`. -/
def create_plan (llm : Except String String) (state : ProjectState) :
    ProjectState :=
  if state.status = "failed" then state
  else
    match llm with
    | .ok _ =>
        { state with
          tasks := sampleTasks
          context := { state.context with plan := some samplePlan }
          status := "planned"
          current_phase := "development" }
    | .error e =>
        { state with
          errors := state.errors ++ ["Planning failed: " ++ e]
          status := "failed" }

/-- The assignment loop of `execute_tasks` (app.py lines 181-190): walk
the task list, turn each `pending` task into `assigned` with agent
`"agent_" ++ (count % 3 + 1)`, and stop as soon as the count (checked
right after each increment) reaches 2.  Returns the rewritten list and
the final count. -/
def assignLoop : List Task → Nat → List Task × Nat
  | [], n => ([], n)
  | t :: ts, n =>
      if t.status = "pending" then
        let t' := { t with
          status := "assigned"
          assigned_agent := some ("agent_" ++ toString (n % 3 + 1)) }
        if n + 1 ≥ 2 then (t' :: ts, n + 1)
        else
          let r := assignLoop ts (n + 1)
          (t' :: r.1, r.2)
      else
        let r := assignLoop ts n
        (t :: r.1, r.2)

/-- Stage `execute` = `execute_tasks` (app.py lines 172-205).  `now` is
`datetime.now().isoformat()`.  The body raises no exception, so the
`except` branch is dead code and the result is always the success
branch (after the failed-status guard). -/
def execute_tasks (now : String) (state : ProjectState) : ProjectState :=
  if state.status = "failed" then state
  else
    let r := assignLoop state.tasks 0
    { state with
      tasks := r.1
      context := { state.context with
        execution := some
          { tasks_assigned := r.2
            agents_used := min 3 r.2
            start_time := now } }
      status := "executing"
      current_phase := "development" }

/-- One full pass of the compiled graph of `create_project_workflow`
(app.py lines 208-223): the strictly linear node sequence
`analyze → plan → execute`; the graph itself has no conditional edges,
failure short-circuiting lives inside the stages.  `la`, `lp` are the
outcomes of the two capability calls and `now` the execution start
time. -/
def run_workflow (la lp : Except String String) (now : String)
    (state : ProjectState) : ProjectState :=
  execute_tasks now (create_plan lp (analyze_requirements la state))

/-! ### Checkpoint store (Redis fast tier + MongoDB durable tier) -/

/-- A document of the `db.workflows` collection (app.py lines 277-283):
`workflow_id`, `project_id`, `state`, `created_at`, `updated_at`
(timestamps as naturals). -/
structure CheckpointRecord where
  workflow_id : String
  project_id : String
  state : ProjectState
  created_at : Nat
  updated_at : Nat
deriving DecidableEq, Repr

/-- The two persistence tiers: `fast` is the Redis keyspace (key ↦ cached
state, TTL not tracked — expiry is modelled by `expireFast`), `durable`
the MongoDB `workflows` collection. -/
structure Store where
  fast : List (String × ProjectState) := []
  durable : List CheckpointRecord := []
deriving DecidableEq, Repr

/-- Model of `redis_client.get(key)`. -/
def lookupFast (fast : List (String × ProjectState)) (key : String) :
    Option ProjectState :=
  (fast.find? fun p => p.1 = key).map (·.2)

/-- Model of `redis_client.setex(key, ttl, value)`: overwrite the key. -/
def setFast (fast : List (String × ProjectState)) (key : String)
    (v : ProjectState) : List (String × ProjectState) :=
  (key, v) :: fast.filter fun p => ¬ p.1 = key

/-- TTL expiry of the fast tier: every cached entry is gone; the durable
tier is untouched. -/
def expireFast (st : Store) : Store :=
  { st with fast := [] }

/-- Model of the `db.workflows.find_one` lookup by workflow id. -/
def findDurable (st : Store) (wid : String) : Option CheckpointRecord :=
  st.durable.find? fun r => r.workflow_id = wid

/-- Model of `db.workflows.update_one` on the first record matching `wid`, setting
`state` and `updated_at` (app.py lines 341-349). -/
def updateDurable : List CheckpointRecord → String → ProjectState → Nat →
    List CheckpointRecord
  | [], _, _, _ => []
  | r :: rs, wid, s, now =>
      if r.workflow_id = wid then { r with state := s, updated_at := now } :: rs
      else r :: updateDurable rs wid s now

/-- Errors surfaced by the endpoints: `HTTPException(404, ...)` and
`HTTPException(500, ...)`. -/
inductive ApiError where
  | notFound (detail : String)
  | serverError (detail : String)
deriving DecidableEq, Repr

/-- Model of `WorkflowRequest` (app.py lines 42-48); the deadline is kept as its
iso string. -/
structure WorkflowRequest where
  project_id : String
  requirements : String
  project_type : String := "web_application"
  priority : String := "medium"
  deadline : Option String := none
  context : Option Ctx := none
deriving DecidableEq, Repr

/-- Model of `WorkflowResponse` (app.py lines 50-54). -/
structure WorkflowResponse where
  workflow_id : String
  status : String
  state : ProjectState
  next_steps : List String
deriving DecidableEq, Repr

/-- The `next_steps` derivation of `start_workflow` (app.py lines
286-292). -/
def nextSteps (status : String) : List String :=
  if status = "executing" then
    ["Monitor task execution", "Assign agents to pending tasks"]
  else if status = "failed" then
    ["Review errors", "Retry failed steps"]
  else
    ["Continue to next phase"]

/-- The initial `ProjectState` built by `start_workflow` (app.py lines
252-262): caller context or `\x7b\x7d`, metadata from the request,
pydantic defaults for the rest. -/
def initialStateOf (req : WorkflowRequest) (createdAt : String) : ProjectState :=
  { project_id := req.project_id
    requirements := req.requirements
    context := req.context.getD {}
    metadata :=
      { project_type := req.project_type
        priority := req.priority
        deadline := req.deadline
        created_at := createdAt } }

/-- Endpoint `POST /workflow/start` = `start_workflow` (app.py lines 247-302).
`la`/`lp` are the capability outcomes, `nowS`/`nowT` the clock readings,
`redisOk`/`mongoOk` whether the Redis `setex` / Mongo `insert_one` call
succeeds (a failing call raises, writes nothing, and the surrounding
`except` turns it into HTTP 500).  The Redis write comes first, then the
Mongo insert. -/
def start_workflow (la lp : Except String String) (nowS : String) (nowT : Nat)
    (redisOk mongoOk : Bool) (st : Store) (req : WorkflowRequest) :
    Except ApiError WorkflowResponse × Store :=
  let result := run_workflow la lp nowS (initialStateOf req nowS)
  let wid := "workflow_" ++ req.project_id ++ "_" ++ toString nowT
  if redisOk = false then
    (.error (.serverError "Workflow failed"), st)
  else
    let st1 : Store := { st with fast := setFast st.fast wid result }
    if mongoOk = false then
      (.error (.serverError "Workflow failed"), st1)
    else
      let st2 : Store := { st1 with durable := st1.durable ++
        [{ workflow_id := wid
           project_id := req.project_id
           state := result
           created_at := nowT
           updated_at := nowT }] }
      (.ok { workflow_id := wid
             status := result.status
             state := result
             next_steps := nextSteps result.status }, st2)

/-- Endpoint `GET /workflow/...` = `get_workflow_status` (app.py
lines 304-323): Redis first, Mongo fallback, 404 when both miss.  The
handler performs no write, so the store comes back unchanged. -/
def get_workflow_status (st : Store) (wid : String) :
    Except ApiError ProjectState × Store :=
  match lookupFast st.fast wid with
  | some s => (.ok s, st)
  | none =>
      match findDurable st wid with
      | some r => (.ok r.state, st)
      | none => (.error (.notFound "Workflow not found"), st)

/-- Endpoint `POST /workflow/.../continue` = `continue_workflow`
(app.py lines 325-359): load from Mongo (404 if absent), re-run the full
graph on the loaded state, then Mongo `update_one` followed by Redis
`setex`. -/
def continue_workflow (la lp : Except String String) (nowS : String)
    (nowT : Nat) (redisOk mongoOk : Bool) (st : Store) (wid : String) :
    Except ApiError ProjectState × Store :=
  match findDurable st wid with
  | none => (.error (.notFound "Workflow not found"), st)
  | some r =>
      let result := run_workflow la lp nowS r.state
      if mongoOk = false then
        (.error (.serverError "Error continuing workflow"), st)
      else
        let st1 : Store := { st with durable := updateDurable st.durable wid result nowT }
        if redisOk = false then
          (.error (.serverError "Error continuing workflow"), st1)
        else
          (.ok result, { st1 with fast := setFast st1.fast wid result })

/-- Comparison used by `.sort("created_at", -1)`: newest first. -/
def createdDesc (a b : CheckpointRecord) : Bool :=
  decide (b.created_at ≤ a.created_at)

/-- The response of `GET /workflows`. -/
structure ListResult where
  workflows : List CheckpointRecord
  total : Nat
  offset : Nat
  limit : Nat
deriving DecidableEq, Repr

/-- Endpoint `GET /workflows` = `list_workflows` (app.py lines 361-382): durable
tier only, sorted by `created_at` descending, `skip(offset).limit(limit)`,
`total = count_documents(\x7b\x7d)`. -/
def list_workflows (st : Store) (limit : Nat := 10) (offset : Nat := 0) :
    ListResult :=
  let sorted := st.durable.mergeSort createdDesc
  { workflows := (sorted.drop offset).take limit
    total := st.durable.length
    offset := offset
    limit := limit }

/-! ### Shared concrete fixtures -/

/-- A concrete already-failed state (as left behind by a failing analyze
pass). -/
def failedState : ProjectState :=
  { project_id := "p"
    requirements := "r"
    status := "failed"
    errors := ["Analysis failed: boom"] }

/-- A concrete state that has progressed to `executing`. -/
def executingState : ProjectState :=
  { project_id := "p"
    requirements := "r"
    status := "executing"
    current_phase := "development" }

/-- A store holding one durable checkpoint of `failedState` under id
`"w1"`, fast tier empty (expired). -/
def failedStore : Store :=
  { fast := []
    durable := [{ workflow_id := "w1", project_id := "p", state := failedState,
                  created_at := 0, updated_at := 0 }] }

/-- A store with nothing in it. -/
def emptyStore : Store := {}

/-- A concrete request fixture. -/
def loginReq : WorkflowRequest :=
  { project_id := "p1", requirements := "Build a login page." }

/-! ### Helper lemmas -/

/-- The assignment loop checks its counter right after each increment and
stops at 2, so starting below 2 it never ends above 2: bounded work per
invocation. -/
theorem assignLoop_le (ts : List Task) : ∀ n, n < 2 → (assignLoop ts n).2 ≤ 2 := by
  induction ts with
  | nil => intro n h; simp [assignLoop]; omega
  | cons t ts ih =>
    intro n h
    by_cases hp : t.status = "pending"
    · by_cases h2 : n + 1 ≥ 2
      · simp [assignLoop, hp, h2]; omega
      · simp [assignLoop, hp, h2]
        exact ih (n + 1) (by omega)
    · simp [assignLoop, hp]
      exact ih n h

/-- A graph pass whose analyze capability fails only appends the analysis
error and (re)sets `status` to `"failed"`; on an already-failed state the
guarded plan and execute Stages then pass through. -/
theorem run_workflow_analyzer_error (e : String) (lp : Except String String)
    (now : String) (s : ProjectState) :
    run_workflow (.error e) lp now s =
      { s with
        errors := s.errors ++ ["Analysis failed: " ++ e]
        status := "failed" } := by
  simp [run_workflow, analyze_requirements, create_plan, execute_tasks]

/-- Mongo `update_one` rewrites exactly the first record matching the id, so a
subsequent `find_one` on that id sees the new state and `updated_at`. -/
theorem findDurable_updateDurable (durable : List CheckpointRecord)
    (wid : String) (s : ProjectState) (now : Nat) (r : CheckpointRecord)
    (h : durable.find? (fun x => x.workflow_id = wid) = some r) :
    (updateDurable durable wid s now).find? (fun x => x.workflow_id = wid) =
      some { r with state := s, updated_at := now } := by
  induction durable with
  | nil => simp at h
  | cons a as ih =>
    by_cases ha : a.workflow_id = wid
    · rw [List.find?_cons_of_pos _ (by simpa using ha)] at h
      obtain rfl : a = r := by simpa using h
      rw [updateDurable, if_pos ha]
      exact List.find?_cons_of_pos _ (by simpa using ha)
    · rw [List.find?_cons_of_neg _ (by simpa using ha)] at h
      rw [updateDurable, if_neg ha]
      rw [List.find?_cons_of_neg _ (by simpa using ha)]
      exact ih h

/-- Iterated resume: `n` successive `continue` calls on the same workflow id,
with the Analyzer capability failing with message `e` on every call and
both persistence writes succeeding. -/
def iterResume (e : String) (lp : Except String String) (nowS : String)
    (nowT : Nat) (wid : String) : Nat → Store → Store
  | 0, st => st
  | n + 1, st =>
      iterResume e lp nowS nowT wid n
        (continue_workflow (.error e) lp nowS nowT true true st wid).2

/-! ### Claims -/

/-- Claim C1, counterexample.  The claim says every Stage is a no-op on a
`failed` state; but `analyze_requirements` has no failed-status guard:
on a failed state with a succeeding capability it rewrites the state
(status becomes `"analyzed"`). -/
theorem C1_counterexample :
    analyze_requirements (.ok "") failedState ≠ failedState := by
  decide

/-- Claim C1, amended.  Invoking the plan or execute Stage on a state whose
status is `"failed"` returns the state unchanged; the analyze Stage has
no such guard and always modifies a failed state — on capability success
it resets `status` to `"analyzed"`, on capability failure it appends
another error message. -/
theorem C1_failed_noop_only_plan_execute (lp : Except String String)
    (now : String) (s : ProjectState) (h : s.status = "failed") :
    create_plan lp s = s ∧ execute_tasks now s = s ∧
    (∀ r, analyze_requirements (.ok r) s ≠ s) ∧
    (∀ e, analyze_requirements (.error e) s ≠ s) := by
  refine ⟨by simp [create_plan, h], by simp [execute_tasks, h], ?_, ?_⟩
  · intro r heq
    have h2 := congrArg ProjectState.status heq
    simp [analyze_requirements, h] at h2
  · intro e heq
    have h2 := congrArg (fun st => st.errors.length) heq
    simp [analyze_requirements] at h2

/-- Claim C1, witness for the amended theorem at `failedState`. -/
theorem C1_witness :
    create_plan (.ok "") failedState = failedState ∧
    execute_tasks "t" failedState = failedState ∧
    (∀ r, analyze_requirements (.ok r) failedState ≠ failedState) ∧
    (∀ e, analyze_requirements (.error e) failedState ≠ failedState) :=
  C1_failed_noop_only_plan_execute (.ok "") "t" failedState (by decide)

/-- Claim C2, counterexample.  Resume on a stored `failed` workflow is not
idempotent: because `analyze_requirements` has no failed-status guard,
a `continue` call whose Analyzer capability now succeeds re-runs the
whole pipeline and changes `tasks` (from the stored empty list to the
five generated tasks). -/
theorem C2_counterexample :
    ((continue_workflow (.ok "") (.ok "") "T" 1 true true failedStore "w1").1.toOption.map
      fun s => s.tasks) ≠ some failedState.tasks := by
  decide

/-- Claim C2, amended.  If the Analyzer capability keeps failing, repeated
resume calls on a `failed` workflow never change `tasks`, `context`, or
`current_phase` and keep `status = "failed"`, but every single resume
appends one more copy of the identical analysis error message — the
duplicates are not capped at one additional persistence round.  (When
the Analyzer succeeds instead, resume re-runs the full pipeline and does
change `tasks`, `context`, and `current_phase` — see the
counterexample.) -/
theorem C2_resume_failed_only_accumulates_errors (e : String)
    (lp : Except String String) (nowS : String) (nowT : Nat) (wid : String) :
    ∀ (n : Nat) (st : Store) (r : CheckpointRecord),
      findDurable st wid = some r → r.state.status = "failed" →
      (findDurable (iterResume e lp nowS nowT wid n st) wid).map
          (fun x => (x.state.tasks, x.state.context, x.state.current_phase,
                     x.state.status, x.state.errors)) =
        some (r.state.tasks, r.state.context, r.state.current_phase, "failed",
              r.state.errors ++ List.replicate n ("Analysis failed: " ++ e)) := by
  intro n
  induction n with
  | zero =>
    intro st r h hst
    simp [iterResume, h, hst]
  | succ n ih =>
    intro st r h hst
    rw [iterResume]
    have hstep : (continue_workflow (.error e) lp nowS nowT true true st wid).2 =
        { st with
          durable := updateDurable st.durable wid
            { r.state with
              errors := r.state.errors ++ ["Analysis failed: " ++ e]
              status := "failed" } nowT
          fast := setFast st.fast wid
            { r.state with
              errors := r.state.errors ++ ["Analysis failed: " ++ e]
              status := "failed" } } := by
      simp [continue_workflow, h, run_workflow_analyzer_error]
    rw [hstep]
    have hfind' : findDurable
        { st with
          durable := updateDurable st.durable wid
            { r.state with
              errors := r.state.errors ++ ["Analysis failed: " ++ e]
              status := "failed" } nowT
          fast := setFast st.fast wid
            { r.state with
              errors := r.state.errors ++ ["Analysis failed: " ++ e]
              status := "failed" } } wid =
        some { r with
               state := { r.state with
                 errors := r.state.errors ++ ["Analysis failed: " ++ e]
                 status := "failed" }
               updated_at := nowT } := by
      simpa [findDurable] using
        findDurable_updateDurable st.durable wid _ nowT r
          (by simpa [findDurable] using h)
    have hrec := ih _ _ hfind' rfl
    rw [hrec]
    simp [List.replicate_succ, List.append_assoc]

/-- Claim C2, witness: two successive resumes on the concrete failed store
leave tasks, context and phase as stored and append the same message
twice. -/
theorem C2_witness :
    (findDurable (iterResume "down" (.ok "") "T" 5 "w1" 2 failedStore) "w1").map
        (fun x => (x.state.tasks, x.state.context, x.state.current_phase,
                   x.state.status, x.state.errors)) =
      some (failedState.tasks, failedState.context, failedState.current_phase,
            "failed",
            failedState.errors ++ List.replicate 2 ("Analysis failed: " ++ "down")) :=
  C2_resume_failed_only_accumulates_errors "down" (.ok "") "T" 5 "w1" 2 failedStore
    { workflow_id := "w1", project_id := "p", state := failedState,
      created_at := 0, updated_at := 0 } rfl rfl

/-- Rank of a status along the progression
`draft < analyzed < planned < executing`, with `failed` as absorbing
terminal above all of them. -/
def statusRank : String → Nat
  | "draft" => 0
  | "analyzed" => 1
  | "planned" => 2
  | "executing" => 3
  | "failed" => 4
  | _ => 0

/-- Claim C3, counterexample.  The analyze Stage regresses `status`: invoked
on an `executing` state with a succeeding capability it resets status to
`"analyzed"` (rank drops from 3 to 1), and invoked on a `failed` state it
resets the failure to `"analyzed"` — a Stage, not an external retry
action. -/
theorem C3_counterexample :
    (analyze_requirements (.ok "") executingState).status = "analyzed" ∧
    statusRank (analyze_requirements (.ok "") executingState).status <
      statusRank executingState.status ∧
    failedState.status = "failed" ∧
    (analyze_requirements (.ok "") failedState).status = "analyzed" := by
  decide

/-- Claim C3, amended.  Status is monotone along
`draft < analyzed < planned < executing` (with `failed` terminal) within a
single graph pass started from a `draft` state, and the plan and execute
Stages never reset a `failed` status; the analyze Stage, however,
unconditionally sets status to `"analyzed"` on capability success, so
invoking the graph on an already-advanced or failed state (as resume
does) regresses or resets the status. -/
theorem C3_status_monotone_from_draft (la lp : Except String String)
    (now : String) (s : ProjectState) (h : s.status = "draft") :
    (statusRank s.status ≤ statusRank (analyze_requirements la s).status ∧
     statusRank (analyze_requirements la s).status ≤
       statusRank (create_plan lp (analyze_requirements la s)).status ∧
     statusRank (create_plan lp (analyze_requirements la s)).status ≤
       statusRank (run_workflow la lp now s).status) ∧
    (∀ s' : ProjectState, s'.status = "failed" →
      (create_plan lp s').status = "failed" ∧
      (execute_tasks now s').status = "failed") := by
  constructor
  · rcases la with e | ra
    · have h1 : (analyze_requirements (.error e) s).status = "failed" := by
        simp [analyze_requirements]
      have h2 : (create_plan lp (analyze_requirements (.error e) s)).status = "failed" := by
        simp [create_plan, h1]
      have h3 : (run_workflow (.error e) lp now s).status = "failed" := by
        simp [run_workflow, execute_tasks, h2]
      rw [h, h1, h2, h3]
      decide
    · have h1 : (analyze_requirements (.ok ra) s).status = "analyzed" := by
        simp [analyze_requirements]
      rcases lp with e' | rp
      · have h2 : (create_plan (.error e') (analyze_requirements (.ok ra) s)).status = "failed" := by
          simp [create_plan, h1]
        have h3 : (run_workflow (.ok ra) (.error e') now s).status = "failed" := by
          simp [run_workflow, execute_tasks, h2]
        rw [h, h1, h2, h3]
        decide
      · have h2 : (create_plan (.ok rp) (analyze_requirements (.ok ra) s)).status = "planned" := by
          simp [create_plan, h1]
        have h3 : (run_workflow (.ok ra) (.ok rp) now s).status = "executing" := by
          simp [run_workflow, execute_tasks, h2]
        rw [h, h1, h2, h3]
        decide
  · intro s' h'
    exact ⟨by simp [create_plan, h'], by simp [execute_tasks, h']⟩

/-- Claim C3, witness at a concrete draft state. -/
theorem C3_witness :
    (statusRank (initialStateOf loginReq "C").status ≤
       statusRank (analyze_requirements (.ok "") (initialStateOf loginReq "C")).status ∧
     statusRank (analyze_requirements (.ok "") (initialStateOf loginReq "C")).status ≤
       statusRank (create_plan (.ok "") (analyze_requirements (.ok "") (initialStateOf loginReq "C"))).status ∧
     statusRank (create_plan (.ok "") (analyze_requirements (.ok "") (initialStateOf loginReq "C"))).status ≤
       statusRank (run_workflow (.ok "") (.ok "") "T" (initialStateOf loginReq "C")).status) ∧
    (∀ s' : ProjectState, s'.status = "failed" →
      (create_plan (.ok "") s').status = "failed" ∧
      (execute_tasks "T" s').status = "failed") :=
  C3_status_monotone_from_draft (.ok "") (.ok "") "T" (initialStateOf loginReq "C") rfl

/-- Claim C4, counterexample.  The claim says a fast-tier write failure is
swallowed and the start operation still succeeds; in the code the Redis
`setex` sits in the same `try` as everything else, so its failure
surfaces as HTTP 500 (and, since it precedes the Mongo insert, the
durable record is never written either). -/
theorem C4_counterexample :
    start_workflow (.ok "") (.ok "") "T" 0 false true emptyStore loginReq =
      (.error (.serverError "Workflow failed"), emptyStore) := by
  rfl

/-- Claim C4, amended.  In the checkpoint write path of `start_workflow`,
a durable-tier write failure is fatal (surfaced as HTTP 500), and a
fast-tier write failure is fatal as well — it is not swallowed; moreover
the fast-tier write comes first, so its failure also prevents the durable
write, leaving the store unchanged.  When both writes succeed the
operation succeeds. -/
theorem C4_both_tier_write_failures_fatal (la lp : Except String String)
    (nowS : String) (nowT : Nat) (st : Store) (req : WorkflowRequest) :
    (start_workflow la lp nowS nowT true false st req).1 =
      .error (.serverError "Workflow failed") ∧
    (start_workflow la lp nowS nowT false true st req).1 =
      .error (.serverError "Workflow failed") ∧
    (start_workflow la lp nowS nowT false true st req).2 = st ∧
    (start_workflow la lp nowS nowT true true st req).1.isOk = true := by
  refine ⟨?_, ?_, ?_, ?_⟩ <;> simp [start_workflow, Except.isOk, Except.toBool]

/-- Claim C5:  Start scenario for requirements `"Build a login page."` with
both capabilities succeeding: analysis context populated, status advances
`analyzed` → `planned` → `executing` in one pass, 5 tasks are produced, the
first two are `assigned` to `agent_1`/`agent_2`, the other three stay
`pending`; and the execute Stage assigns at most 2 tasks per invocation. -/
theorem C5_login_page_scenario (ra rp now pid ctime : String) :
    (analyze_requirements (.ok ra)
        (initialStateOf { project_id := pid, requirements := "Build a login page." } ctime)).status
      = "analyzed" ∧
    (create_plan (.ok rp) (analyze_requirements (.ok ra)
        (initialStateOf { project_id := pid, requirements := "Build a login page." } ctime))).status
      = "planned" ∧
    (run_workflow (.ok ra) (.ok rp) now
        (initialStateOf { project_id := pid, requirements := "Build a login page." } ctime)).status
      = "executing" ∧
    (run_workflow (.ok ra) (.ok rp) now
        (initialStateOf { project_id := pid, requirements := "Build a login page." } ctime)).context.analysis
      = some (mkAnalysis "Build a login page.") ∧
    ((run_workflow (.ok ra) (.ok rp) now
        (initialStateOf { project_id := pid, requirements := "Build a login page." } ctime)).tasks.map
        fun t => (t.id, t.status, t.assigned_agent))
      = [("task_1", "assigned", some "agent_1"),
         ("task_2", "assigned", some "agent_2"),
         ("task_3", "pending", none),
         ("task_4", "pending", none),
         ("task_5", "pending", none)] ∧
    (∀ ts : List Task, (assignLoop ts 0).2 ≤ 2) := by
  refine ⟨rfl, rfl, rfl, rfl, rfl, fun ts => assignLoop_le ts 0 (by omega)⟩

/-- Claim C7:  When the Analyzer capability fails, a start pass from any
request with empty initial context ends with `status = "failed"`, at
least one error recorded, no tasks, and an empty context; the failing
Stage records the failure instead of raising. -/
theorem C7_analyzer_failure_contained (e : String) (lp : Except String String)
    (now pid reqs ptype prio ctime : String) (dl : Option String) :
    (run_workflow (.error e) lp now
        (initialStateOf (WorkflowRequest.mk pid reqs ptype prio dl none) ctime)).status
      = "failed" ∧
    1 ≤ (run_workflow (.error e) lp now
        (initialStateOf (WorkflowRequest.mk pid reqs ptype prio dl none) ctime)).errors.length ∧
    (run_workflow (.error e) lp now
        (initialStateOf (WorkflowRequest.mk pid reqs ptype prio dl none) ctime)).tasks
      = [] ∧
    (run_workflow (.error e) lp now
        (initialStateOf (WorkflowRequest.mk pid reqs ptype prio dl none) ctime)).context
      = Ctx.empty ∧
    (run_workflow (.error e) lp now
        (initialStateOf (WorkflowRequest.mk pid reqs ptype prio dl none) ctime)).errors
      = ["Analysis failed: " ++ e] := by
  refine ⟨?_, ?_, ?_, ?_, ?_⟩ <;>
    simp [run_workflow, analyze_requirements, create_plan, execute_tasks,
      initialStateOf, Ctx.empty]

/-- Claim C9:  Resume (`continue_workflow`) on a `workflow_id` with no
durable record fails with 404 and leaves the store fully unchanged:
no record is created and neither tier is written. -/
theorem C9_resume_unknown_id (la lp : Except String String) (nowS : String)
    (nowT : Nat) (redisOk mongoOk : Bool) (st : Store) (wid : String)
    (h : findDurable st wid = none) :
    continue_workflow la lp nowS nowT redisOk mongoOk st wid =
      (.error (.notFound "Workflow not found"), st) := by
  simp [continue_workflow, h]

/-- Claim C9, witness at the empty store. -/
theorem C9_witness :
    continue_workflow (.ok "") (.ok "") "T" 1 true true emptyStore "w1" =
      (.error (.notFound "Workflow not found"), emptyStore) :=
  C9_resume_unknown_id (.ok "") (.ok "") "T" 1 true true emptyStore "w1" rfl

/-- Claim C10:  Non-interference of the planning Stage: on any two
non-failed states and any two capability responses, the successful path
of `create_plan` writes the identical fixed tasks and plan (4 phases,
`total_tasks = 23`, five `pending` tasks `task_1` … `task_5`); in the
analysis, every field is input-independent except `features`, which is
the requirements split on `"."`. -/
theorem C10_plan_independent_of_input (s₁ s₂ : ProjectState) (r₁ r₂ : String)
    (h₁ : s₁.status ≠ "failed") (h₂ : s₂.status ≠ "failed") :
    (create_plan (.ok r₁) s₁).tasks = (create_plan (.ok r₂) s₂).tasks ∧
    (create_plan (.ok r₁) s₁).context.plan = (create_plan (.ok r₂) s₂).context.plan ∧
    (create_plan (.ok r₁) s₁).tasks = sampleTasks ∧
    (create_plan (.ok r₁) s₁).context.plan = some samplePlan ∧
    samplePlan.total_tasks = 23 ∧
    samplePlan.phases.length = 4 ∧
    (sampleTasks.map fun t => (t.id, t.status)) =
      [("task_1", "pending"), ("task_2", "pending"), ("task_3", "pending"),
       ("task_4", "pending"), ("task_5", "pending")] ∧
    (∀ req : String,
      (mkAnalysis req).features = req.splitOn "." ∧
      (mkAnalysis req).complexity = 7 ∧
      (mkAnalysis req).technologies = ["React", "Node.js", "MongoDB"] ∧
      (mkAnalysis req).challenges = ["User authentication", "Real-time updates"] ∧
      (mkAnalysis req).estimated_hours = 160) := by
  refine ⟨?_, ?_, ?_, ?_, by decide, by decide, by decide, ?_⟩ <;>
    simp [create_plan, h₁, h₂, mkAnalysis]

/-- Claim C10, witness at two concrete states with different requirements. -/
theorem C10_witness :
    (create_plan (.ok "a") (initialStateOf loginReq "C")).tasks =
      (create_plan (.ok "b") (initialStateOf { project_id := "q", requirements := "Other." } "C")).tasks ∧
    (create_plan (.ok "a") (initialStateOf loginReq "C")).tasks = sampleTasks :=
  ⟨(C10_plan_independent_of_input (initialStateOf loginReq "C")
      (initialStateOf { project_id := "q", requirements := "Other." } "C")
      "a" "b" (by decide) (by decide)).1,
   (C10_plan_independent_of_input (initialStateOf loginReq "C")
      (initialStateOf { project_id := "q", requirements := "Other." } "C")
      "a" "b" (by decide) (by decide)).2.2.1⟩

/-- Claim C6:  Read path of the checkpoint get operation: the fast tier is
attempted first; on a fast-tier miss the durable tier is consulted and a
hit is returned without any write-back (the store comes back unchanged in
every case); a miss of both tiers yields 404.  Consequently, after a
successful start with a fresh workflow id followed by full fast-tier
expiry, get still returns exactly the state that start persisted, via the
durable tier. -/
theorem C6_get_read_path (st : Store) (wid : String) :
    (∀ s, lookupFast st.fast wid = some s →
      get_workflow_status st wid = (.ok s, st)) ∧
    (∀ r, lookupFast st.fast wid = none → findDurable st wid = some r →
      get_workflow_status st wid = (.ok r.state, st)) ∧
    (lookupFast st.fast wid = none → findDurable st wid = none →
      get_workflow_status st wid = (.error (.notFound "Workflow not found"), st)) ∧
    (∀ (la lp : Except String String) (nowS : String) (nowT : Nat)
        (req : WorkflowRequest),
      findDurable st ("workflow_" ++ req.project_id ++ "_" ++ toString nowT) = none →
      get_workflow_status
          (expireFast (start_workflow la lp nowS nowT true true st req).2)
          ("workflow_" ++ req.project_id ++ "_" ++ toString nowT) =
        (.ok (run_workflow la lp nowS (initialStateOf req nowS)),
         expireFast (start_workflow la lp nowS nowT true true st req).2)) := by
  refine ⟨?_, ?_, ?_, ?_⟩
  · intro s hs
    simp [get_workflow_status, hs]
  · intro r hf hd
    simp [get_workflow_status, hf, hd]
  · intro hf hd
    simp [get_workflow_status, hf, hd]
  · intro la lp nowS nowT req hfresh
    simp only [findDurable] at hfresh
    simp [get_workflow_status, start_workflow, expireFast, lookupFast,
      findDurable, List.find?_append, hfresh]

/-- Claim C6, witness: durable-tier fallback on a store whose fast tier has
expired. -/
theorem C6_witness :
    get_workflow_status failedStore "w1" = (.ok failedState, failedStore) :=
  (C6_get_read_path failedStore "w1").2.1
    { workflow_id := "w1", project_id := "p", state := failedState,
      created_at := 0, updated_at := 0 } rfl rfl

/-- Claim C8:  Pagination of the list operation: for every offset and
limit, at most `limit` records are returned, they are ordered by
`created_at` descending, and `total` is the full durable-tier count
independent of offset and limit. -/
theorem C8_pagination (st : Store) (offset limit : Nat) :
    (list_workflows st limit offset).workflows.length ≤ limit ∧
    (list_workflows st limit offset).workflows.Pairwise
      (fun a b => b.created_at ≤ a.created_at) ∧
    (list_workflows st limit offset).total = st.durable.length := by
  refine ⟨?_, ?_, rfl⟩
  · simp [list_workflows]
  · have htrans : ∀ a b c : CheckpointRecord,
        createdDesc a b → createdDesc b c → createdDesc a c := by
      intro a b c hab hbc
      simp [createdDesc] at *
      omega
    have htotal : ∀ a b : CheckpointRecord,
        createdDesc a b || createdDesc b a := by
      intro a b
      simp [createdDesc]
      omega
    have hs : (st.durable.mergeSort createdDesc).Pairwise
        (fun a b => createdDesc a b) :=
      List.sorted_mergeSort htrans htotal st.durable
    have hsub : List.Sublist
        (((st.durable.mergeSort createdDesc).drop offset).take limit)
        (st.durable.mergeSort createdDesc) :=
      (List.take_sublist _ _).trans (List.drop_sublist _ _)
    refine ((hs.sublist hsub).imp ?_)
    intro a b hab
    simpa [createdDesc] using hab

end VIC
